import Mathlib

/-!
Verification of the ColaWaterToolbox quality-control checks.

The development shallowly embeds the two source files
`src/colawater/tools/checks/mains.py` and
`src/colawater/tools/quality_control.py`.  The geodatabase behind the
host-provided cursor is modelled as a list of rows; the filesystem
collaborator is a boolean oracle on paths.  Modules of the repository that
are not present under `src/` (`colawater.scan`, `colawater.error`,
`colawater.tools.checks.fids`) are modelled from the specification and
marked as such in their doc comments.
-/

namespace ColaWater

/-- A row of the water-main feature class as stored in the geodatabase.
Field values mirror the columns named by the cursor queries in
`checks/mains.py`: `OBJECTID`, `COMMENTS`, `DATASOURCE`,
`INTEGRATIONSTATUS`.  String fields are `Option String`, mirroring the
cursor yielding `None` for missing (SQL NULL) values. -/
structure WMRow where
  objectId : Nat
  comments : Option String
  datasource : Option String
  integrationStatus : Option String
deriving DecidableEq, Repr

/-- Modelled from the spec: the filesystem collaborator of section 6, "a
single existence-test capability keyed by a string path" (the module
`colawater/scan.py` is not under `src/`). -/
def FsOracle : Type := String → Bool

/-- Modelled from the spec: `scan.exists` applied to a nullable comment
field.  Per section 8, "File-existence check treats a `None` comment field
as nonexistent (flagged)", a missing value never exists; a present path is
answered by the filesystem collaborator. -/
def scanExists (fs : FsOracle) : Option String → Bool
  | none => false
  | some s => fs s

/-- Cursor query of `find_nonexistent_assoc_files` (mains.py lines 41-47):
`SearchCursor(path, ("OBJECTID", "COMMENTS"), "INTEGRATIONSTATUS = 'Y'")`.
Rows satisfying the where-clause are yielded in source order, projected to
the requested columns. -/
def cursorFiles (db : List WMRow) : List (Nat × Option String) :=
  (db.filter (fun r => r.integrationStatus == some "Y")).map
    (fun r => (r.objectId, r.comments))

/-- Embeds `find_nonexistent_assoc_files` (mains.py lines 41-49): the list
comprehension keeps exactly the cursor rows whose comment field fails
`scan.exists`. -/
def find_nonexistent_assoc_files (fs : FsOracle) (db : List WMRow) :
    List (Nat × Option String) :=
  (cursorFiles db).filter (fun i => !scanExists fs i.2)

/-- Where-clause of `find_incorrect_datasources` (mains.py line 73) applied
to a single row: `INTEGRATIONSTATUS = 'Y' AND (DATASOURCE = 'UNK' OR
DATASOURCE = '' OR DATASOURCE IS NULL)`. -/
def dsWhere (r : WMRow) : Bool :=
  r.integrationStatus == some "Y" &&
    (r.datasource == some "UNK" || r.datasource == some "" ||
      r.datasource == none)

/-- Embeds `find_incorrect_datasources` (mains.py lines 68-75): the cursor
yields every row matching the where-clause, projected to
`("OBJECTID", "DATASOURCE")`, and the comprehension keeps them all. -/
def find_incorrect_datasources (db : List WMRow) :
    List (Nat × Option String) :=
  (db.filter dsWhere).map (fun r => (r.objectId, r.datasource))

end ColaWater

namespace ColaWater

/-- Helper: an element of `cursorFiles db` comes from a db row with
integration status Y. -/
theorem mem_cursorFiles {db : List WMRow} {p : Nat × Option String}
    (h : p ∈ cursorFiles db) :
    ∃ r ∈ db, r.integrationStatus = some "Y" ∧
      p.1 = r.objectId ∧ p.2 = r.comments := by
  simp only [cursorFiles, List.mem_map, List.mem_filter] at h
  obtain ⟨r, ⟨hr, hy⟩, hp⟩ := h
  exact ⟨r, hr, by simpa using hy, by simp [← hp], by simp [← hp]⟩

/-- Helper: a Y-row of the db is yielded by the files cursor. -/
theorem cursorFiles_mem {db : List WMRow} {r : WMRow} (hr : r ∈ db)
    (hy : r.integrationStatus = some "Y") :
    (r.objectId, r.comments) ∈ cursorFiles db := by
  simp only [cursorFiles, List.mem_map, List.mem_filter]
  exact ⟨r, ⟨hr, by simp [hy]⟩, rfl⟩

/-- Helper: an element of the data-source output comes from a db row
matching the where-clause. -/
theorem mem_find_incorrect_datasources {db : List WMRow}
    {p : Nat × Option String} (h : p ∈ find_incorrect_datasources db) :
    ∃ r ∈ db, dsWhere r = true ∧ p.1 = r.objectId ∧ p.2 = r.datasource := by
  simp only [find_incorrect_datasources, List.mem_map, List.mem_filter] at h
  obtain ⟨r, ⟨hr, hw⟩, hp⟩ := h
  exact ⟨r, hr, hw, by simp [← hp], by simp [← hp]⟩

/-- Helper: the where-clause forces integration status Y and a bad
data-source value. -/
theorem dsWhere_spec {r : WMRow} (h : dsWhere r = true) :
    r.integrationStatus = some "Y" ∧
      (r.datasource = some "UNK" ∨ r.datasource = some "" ∨
        r.datasource = none) := by
  simp only [dsWhere, Bool.and_eq_true, Bool.or_eq_true, beq_iff_eq] at h
  obtain ⟨hy, hd⟩ := h
  refine ⟨hy, ?_⟩
  rcases hd with (h1 | h2) | h3
  · exact Or.inl h1
  · exact Or.inr (Or.inl h2)
  · exact Or.inr (Or.inr h3)

/-- A constant filesystem oracle on which no path exists; used by the
concrete witnesses. -/
def fsNone : FsOracle := fun _ => false

/-- C3: a row whose integration-status field is not the sentinel "Y" is
flagged by neither `find_nonexistent_assoc_files` nor
`find_incorrect_datasources`, whatever its comment or data-source fields
hold.  Object identifiers are assumed distinct across the table, as they
are for the geodatabase primary key `OBJECTID`. -/
theorem nonY_row_never_flagged (fs : FsOracle) (db : List WMRow) (r : WMRow)
    (hnd : (db.map (fun x => x.objectId)).Nodup) (hr : r ∈ db)
    (hny : r.integrationStatus ≠ some "Y") (c : Option String) :
    (r.objectId, c) ∉ find_nonexistent_assoc_files fs db ∧
      (r.objectId, c) ∉ find_incorrect_datasources db := by
  have hinj := List.inj_on_of_nodup_map hnd
  constructor
  · intro hmem
    have hcur : (r.objectId, c) ∈ cursorFiles db := by
      simp only [find_nonexistent_assoc_files, List.mem_filter] at hmem
      exact hmem.1
    obtain ⟨r', hr', hy', hoid, -⟩ := mem_cursorFiles hcur
    have : r = r' := hinj hr hr' hoid
    exact hny (this ▸ hy')
  · intro hmem
    obtain ⟨r', hr', hw', hoid, -⟩ := mem_find_incorrect_datasources hmem
    have hy' := (dsWhere_spec hw').1
    have : r = r' := hinj hr hr' hoid
    exact hny (this ▸ hy')

/-- Witness for C3 on a one-row table whose status is "N". -/
theorem nonY_row_never_flagged_witness :
    (([⟨1, some "f", some "UNK", some "N"⟩] :
        List WMRow).map (fun x => x.objectId)).Nodup ∧
      (⟨1, some "f", some "UNK", some "N"⟩ : WMRow) ∈
        ([⟨1, some "f", some "UNK", some "N"⟩] : List WMRow) ∧
      (⟨1, some "f", some "UNK", some "N"⟩ : WMRow).integrationStatus ≠
        some "Y" ∧
      ((1, some "f") ∉
          find_nonexistent_assoc_files fsNone
            [⟨1, some "f", some "UNK", some "N"⟩] ∧
        (1, some "f") ∉
          find_incorrect_datasources [⟨1, some "f", some "UNK", some "N"⟩]) :=
  ⟨by decide, by decide, by decide,
    nonY_row_never_flagged fsNone [⟨1, some "f", some "UNK", some "N"⟩]
      ⟨1, some "f", some "UNK", some "N"⟩ (by decide) (by decide) (by decide)
      (some "f")⟩

/-- C4: among integrated (status "Y") rows, `find_incorrect_datasources`
contains the row's (object id, data-source) pair exactly when the
data-source value is "UNK", the empty string, or missing. -/
theorem incorrect_datasources_iff (db : List WMRow) (r : WMRow)
    (hr : r ∈ db) (hy : r.integrationStatus = some "Y") :
    (r.objectId, r.datasource) ∈ find_incorrect_datasources db ↔
      (r.datasource = some "UNK" ∨ r.datasource = some "" ∨
        r.datasource = none) := by
  constructor
  · intro hmem
    obtain ⟨r', -, hw', -, hds⟩ := mem_find_incorrect_datasources hmem
    have := (dsWhere_spec hw').2
    simp only at hds
    rw [hds]
    exact this
  · intro hbad
    simp only [find_incorrect_datasources, List.mem_map, List.mem_filter]
    refine ⟨r, ⟨hr, ?_⟩, rfl⟩
    simp only [dsWhere, Bool.and_eq_true, Bool.or_eq_true, beq_iff_eq]
    rcases hbad with h1 | h2 | h3
    · exact ⟨hy, Or.inl (Or.inl h1)⟩
    · exact ⟨hy, Or.inl (Or.inr h2)⟩
    · exact ⟨hy, Or.inr h3⟩

/-- Follows the words of spec section 4.3: walk the projected integrated
rows in source order and keep each pair whose referenced file is absent,
producing "the subsequence where the reference is absent".  Written as
direct recursion, to be compared with the comprehension-style embedding. -/
def specNonexistentSubseq (fs : FsOracle) :
    List (Nat × Option String) → List (Nat × Option String)
  | [] => []
  | p :: rest =>
    if scanExists fs p.2 then specNonexistentSubseq fs rest
    else p :: specNonexistentSubseq fs rest

/-- C5: the files check returns exactly the order-preserving subsequence of
projected integrated rows whose reference fails the existence test, an
output pair always arises from an integrated row failing the test, and a
row with a missing comment field is always flagged. -/
theorem nonexistent_assoc_files_spec (fs : FsOracle) (db : List WMRow) :
    find_nonexistent_assoc_files fs db =
        specNonexistentSubseq fs (cursorFiles db) ∧
      (∀ p : Nat × Option String,
        p ∈ find_nonexistent_assoc_files fs db ↔
          ∃ r ∈ db, r.integrationStatus = some "Y" ∧
            scanExists fs r.comments = false ∧
            p = (r.objectId, r.comments)) ∧
      (∀ r ∈ db, r.integrationStatus = some "Y" → r.comments = none →
        (r.objectId, (none : Option String)) ∈
          find_nonexistent_assoc_files fs db) := by
  refine ⟨?_, ?_, ?_⟩
  · unfold find_nonexistent_assoc_files
    induction cursorFiles db with
    | nil => rfl
    | cons p rest ih =>
      by_cases h : scanExists fs p.2
      · simp [specNonexistentSubseq, List.filter, h, ih]
      · simp [specNonexistentSubseq, List.filter, h, ih]
  · intro p
    constructor
    · intro hmem
      simp only [find_nonexistent_assoc_files, List.mem_filter,
        Bool.not_eq_true'] at hmem
      obtain ⟨hcur, hex⟩ := hmem
      obtain ⟨r, hr, hy, h1, h2⟩ := mem_cursorFiles hcur
      refine ⟨r, hr, hy, ?_, ?_⟩
      · rw [← h2]; exact hex
      · exact Prod.ext h1 h2
    · rintro ⟨r, hr, hy, hex, rfl⟩
      simp only [find_nonexistent_assoc_files, List.mem_filter,
        Bool.not_eq_true']
      exact ⟨cursorFiles_mem hr hy, hex⟩
  · intro r hr hy hc
    simp only [find_nonexistent_assoc_files, List.mem_filter,
      Bool.not_eq_true']
    refine ⟨?_, by simp [scanExists]⟩
    have := cursorFiles_mem hr hy
    rwa [hc] at this

/-- Witness for C5: on a one-row table with a missing comment, the row is
returned and matches the specification subsequence. -/
theorem nonexistent_assoc_files_spec_witness :
    find_nonexistent_assoc_files fsNone [⟨2, none, none, some "Y"⟩] =
        specNonexistentSubseq fsNone
          (cursorFiles [⟨2, none, none, some "Y"⟩]) ∧
      (2, (none : Option String)) ∈
        find_nonexistent_assoc_files fsNone [⟨2, none, none, some "Y"⟩] :=
  ⟨(nonexistent_assoc_files_spec fsNone [⟨2, none, none, some "Y"⟩]).1,
    (nonexistent_assoc_files_spec fsNone [⟨2, none, none, some "Y"⟩]).2.2
      ⟨2, none, none, some "Y"⟩ (by decide) (by decide) (by decide)⟩

/-- Witness for C4: a "UNK" row is flagged on a concrete table. -/
theorem incorrect_datasources_iff_witness :
    (⟨7, none, some "UNK", some "Y"⟩ : WMRow) ∈
        ([⟨7, none, some "UNK", some "Y"⟩] : List WMRow) ∧
      (⟨7, none, some "UNK", some "Y"⟩ : WMRow).integrationStatus =
        some "Y" ∧
      ((7, some "UNK") ∈
        find_incorrect_datasources [⟨7, none, some "UNK", some "Y"⟩]) :=
  ⟨by decide, by decide,
    (incorrect_datasources_iff [⟨7, none, some "UNK", some "Y"⟩]
          ⟨7, none, some "UNK", some "Y"⟩ (by decide) (by decide)).mpr
      (Or.inl (by decide))⟩

/-- Embeds the unique-file count of quality_control.py line 126:
    num_unique = len({list[1] for list in nonexistent_files})
The cardinality of a Python set built from the second components is the
number of distinct values, modelled as the length of the deduplicated
list. -/
def num_unique (nf : List (Nat × Option String)) : Nat :=
  ((nf.map (fun p => p.2)).dedup).length

/-- Helper: a nonempty list all of whose elements equal one value
deduplicates to the singleton of that value. -/
theorem dedup_eq_single {α : Type} [DecidableEq α] (a : α) :
    ∀ l : List α, l ≠ [] → (∀ x ∈ l, x = a) → l.dedup = [a] := by
  intro l
  induction l with
  | nil => intro h; exact absurd rfl h
  | cons x rest ih =>
    intro _ hall
    have hx : x = a := hall x (List.mem_cons_self x rest)
    subst hx
    cases rest with
    | nil => rfl
    | cons y t =>
      have hy : y = x := hall y (by simp)
      have hmem : x ∈ y :: t := by rw [hy]; exact List.mem_cons_self x t
      rw [List.dedup_cons_of_mem hmem]
      exact ih (by simp) (fun z hz => hall z (List.mem_cons_of_mem x hz))

/-- C6: the unique count reported by execute equals the number of distinct
comment values among the flagged rows, and the other reported count (the
length of the result) equals the number of integrated rows failing the
existence test. -/
theorem unique_count_spec (fs : FsOracle) (db : List WMRow) :
    num_unique (find_nonexistent_assoc_files fs db) =
        ((find_nonexistent_assoc_files fs db).map
          (fun p => p.2)).toFinset.card ∧
      (find_nonexistent_assoc_files fs db).length =
        (db.filter (fun r =>
          r.integrationStatus == some "Y" && !scanExists fs r.comments)).length := by
  constructor
  · exact (List.card_toFinset _).symm
  · simp only [find_nonexistent_assoc_files, cursorFiles, List.filter_map,
      List.length_map, List.filter_filter]
    congr 1
    apply List.filter_congr
    intro r _
    simp [Function.comp, Bool.and_comm]

/-- C10: when the files check flags at least one row and every flagged row
has a missing comment field, the missing value counts as one distinct
reference: the reported unique count is exactly 1. -/
theorem unique_count_all_none (fs : FsOracle) (db : List WMRow)
    (hne : find_nonexistent_assoc_files fs db ≠ [])
    (hall : ∀ p ∈ find_nonexistent_assoc_files fs db, p.2 = none) :
    num_unique (find_nonexistent_assoc_files fs db) = 1 := by
  unfold num_unique
  rw [dedup_eq_single none]
  · rfl
  · simpa using hne
  · intro x hx
    rw [List.mem_map] at hx
    obtain ⟨p, hp, rfl⟩ := hx
    exact hall p hp

/-- Witness for C10 on a one-row table whose only comment is missing. -/
theorem unique_count_all_none_witness :
    find_nonexistent_assoc_files fsNone [⟨3, none, none, some "Y"⟩] ≠ [] ∧
      (∀ p ∈ find_nonexistent_assoc_files fsNone [⟨3, none, none, some "Y"⟩],
        p.2 = none) ∧
      num_unique
        (find_nonexistent_assoc_files fsNone [⟨3, none, none, some "Y"⟩]) = 1 :=
  ⟨by decide, by decide,
    unique_count_all_none fsNone [⟨3, none, none, some "Y"⟩] (by decide)
      (by decide)⟩

/-- World state threaded through a check run: the filesystem oracle and the
geodatabase table.  Both check functions of mains.py are single list
comprehensions over a freshly opened cursor; they assign no attribute and
write no module-level state, so a run leaves the world unchanged. -/
structure World where
  fs : FsOracle
  db : List WMRow

/-- Runs the associated-files check against the world, returning its output
and the world as the check leaves it. -/
def runFileCheck (w : World) : List (Nat × Option String) × World :=
  (find_nonexistent_assoc_files w.fs w.db, w)

/-- Runs the data-source check against the world, returning its output and
the world as the check leaves it. -/
def runDsCheck (w : World) : List (Nat × Option String) × World :=
  (find_incorrect_datasources w.db, w)

/-- C9: running either check a second time, on the world state the first
run leaves behind, produces the same output as the first run: the checks
are deterministic and mutate no hidden state. -/
theorem checks_idempotent (w : World) :
    (runFileCheck (runFileCheck w).2).1 = (runFileCheck w).1 ∧
      (runDsCheck (runDsCheck w).2).1 = (runDsCheck w).1 :=
  ⟨rfl, rfl⟩

/-- Modelled from the spec: the rows entering duplicate grouping.  Module
`colawater/tools/checks/fids.py` is not under `src/`; per spec section 4.2
"Rows with empty/null identifiers are conventionally excluded from
duplicate grouping". -/
def validFidRows (rows : List (Option String × Nat)) : List (String × Nat) :=
  (rows.filterMap (fun p =>
    match p.1 with
    | none => none
    | some f => some (f, p.2))).filter (fun p => !(p.1 == ""))

/-- Modelled from the spec: `fids.find_duplicate_fids` (module
`colawater/tools/checks/fids.py` is not under `src/`).  Spec section 4.2:
"group object ids by identifier value; emit one record per identifier
group containing more than one object id, record = (identifier,
object-id-list)"; section 8 shows the record shape
`[("A", [1, 2])]`. -/
def find_duplicate_fids (rows : List (Option String × Nat)) :
    List (String × List Nat) :=
  (((validFidRows rows).map (fun p => p.1)).dedup.map
    (fun f =>
      (f, ((validFidRows rows).filter (fun p => p.1 == f)).map
        (fun p => p.2)))).filter (fun g => 1 < g.2.length)

/-- Python length of one duplicate record: a record is the pair
(identifier, object-id list), a 2-tuple, so `len` returns 2. -/
def recordLen (g : String × List Nat) : Nat :=
  match g with
  | (_, _) => 2

/-- Embeds the count of quality_control.py lines 94-95:
    num_duplicate = sum(len(i) - 1 if len(i) > 0 else 0
                        for i in duplicate_fids) -/
def num_duplicate (groups : List (String × List Nat)) : Nat :=
  (groups.map (fun i => if 0 < recordLen i then recordLen i - 1 else 0)).sum

/-- C1 counterexample: with three rows sharing identifier "A" the finder
returns the single group ("A", [1, 2, 3]); execute reports
sum(len(record) − 1) = 1 duplicate, while the claimed formula
sum(group size − 1) gives 2. -/
theorem duplicate_count_counterexample :
    ¬(num_duplicate
        (find_duplicate_fids [(some "A", 1), (some "A", 2), (some "A", 3)]) =
      ((find_duplicate_fids
          [(some "A", 1), (some "A", 2), (some "A", 3)]).map
        (fun g => g.2.length - 1)).sum) := by
  decide

/-- C1 amended: the count execute reports is sum over the returned records
of (record length − 1), and a record being an (identifier, object-id-list)
pair of length 2, this equals the number of duplicate groups; on the
spec's example the finder returns [("A", [1, 2])] and the reported count
is 1. -/
theorem duplicate_count_amended (rows : List (Option String × Nat)) :
    num_duplicate (find_duplicate_fids rows) =
        (find_duplicate_fids rows).length ∧
      find_duplicate_fids [(some "A", 1), (some "A", 2), (some "B", 3)] =
        [("A", [1, 2])] ∧
      num_duplicate
        (find_duplicate_fids [(some "A", 1), (some "A", 2), (some "B", 3)]) =
        1 := by
  refine ⟨?_, by decide, by decide⟩
  induction find_duplicate_fids rows with
  | nil => rfl
  | cons g t ih =>
    simp only [num_duplicate, List.map_cons, List.sum_cons, List.length_cons]
      at ih ⊢
    rw [ih]
    rcases g with ⟨f, oids⟩
    simp [recordLen]
    omega

/-- Full-match semantics of the casing-layer pattern of quality_control.py
line 40: a string matches exactly when it is one or more ASCII digits
followed by the two characters C and A.  Implemented on the reversed
character list. -/
def matchesDigitsCA (s : String) : Bool :=
  match s.toList.reverse with
  | 'A' :: 'C' :: rest => !rest.isEmpty && rest.all Char.isDigit
  | _ => false

/-- Modelled from the spec: `fids.find_incorrect_fids` (module
`colawater/tools/checks/fids.py` is not under `src/`).  Spec section 4.1:
the output is "the subsequence whose identifier string does not fully
match the pattern (null/missing identifiers count as non-matching)". -/
def find_incorrect_fids (fullmatch : String → Bool)
    (rows : List (Nat × Option String)) : List (Nat × Option String) :=
  rows.filter (fun p =>
    match p.2 with
    | none => true
    | some s => !fullmatch s)

/-- C8: under the casing pattern, a row carrying identifier "12A" is
flagged, a row carrying "12CA" passes, and a row with a missing identifier
is flagged. -/
theorem fid_format_check_examples (rows : List (Nat × Option String))
    (p : Nat × Option String) (hp : p ∈ rows) :
    (p.2 = some "12A" → p ∈ find_incorrect_fids matchesDigitsCA rows) ∧
      (p.2 = some "12CA" → p ∉ find_incorrect_fids matchesDigitsCA rows) ∧
      (p.2 = none → p ∈ find_incorrect_fids matchesDigitsCA rows) := by
  refine ⟨?_, ?_, ?_⟩
  · intro h
    rw [find_incorrect_fids, List.mem_filter]
    refine ⟨hp, ?_⟩
    simp only [h]
    decide
  · intro h hmem
    rw [find_incorrect_fids, List.mem_filter] at hmem
    have hpred := hmem.2
    simp only [h] at hpred
    exact absurd hpred (by decide)
  · intro h
    rw [find_incorrect_fids, List.mem_filter]
    refine ⟨hp, ?_⟩
    simp only [h]

/-- Modelled from the spec: the single error kind of section 7 (module
`colawater/error.py` with the fallible wrapper is not under `src/`): a
failure of the underlying data access inside a check surfaces as one
generic execution error. -/
inductive ExecErr
  | executeError
deriving DecidableEq, Repr

/-- A layer parameter as execute reads it: whether the tool dialog
supplied a value (truthiness of `.value`), the parameter's display name,
and its textual value. -/
structure LayerParam where
  selected : Bool
  displayName : String
  valueAsText : String
deriving DecidableEq, Repr

/-- One observable effect of a run of execute: a leveled log message, a
progress-sink operation, a report-sink operation, or the terminal
`sy.post`. -/
inductive Effect
  | warning (msg : String)
  | info (msg : String)
  | setProgressor (mode : String)
  | increment
  | addResultLine (layer msg : String)
  | addNoteLine (layer msg : String)
  | addItemsFid (items : List (Nat × Option String))
  | addItemsDup (items : List (String × List Nat))
  | addItemsFiles (items : List (Nat × Option String))
  | addItemsDs (items : List (Nat × Option String))
  | post
deriving DecidableEq, Repr

/-- Outcomes the four check calls deliver to execute for one run: per
layer index for the two facility-identifier checks, and once for each
water-main check.  Each call either returns its result list or raises the
execution error, which execute does not catch. -/
structure Env where
  incFids : Nat → Except ExecErr (List (Nat × Option String))
  dupFids : Nat → Except ExecErr (List (String × List Nat))
  filesResult : Except ExecErr (List (Nat × Option String))
  dsResult : Except ExecErr (List (Nat × Option String))

/-- A run fragment: the effects it emitted, and the error that aborted
it, if any. -/
abbrev RunOut := List Effect × Option ExecErr

/-- Sequencing of run fragments: when the first aborts, the exception
propagates and the second never runs; otherwise the effects
concatenate. -/
def seqRun (a b : RunOut) : RunOut :=
  match a with
  | (tr, some e) => (tr, some e)
  | (tr, none) => (tr ++ b.1, b.2)

/-- Modelled from the spec: the note text `attr.CSV_PROCESSING_MSG`
(module `colawater/attribute.py` is not under `src/`); no claim depends on
its exact wording. -/
def CSV_PROCESSING_MSG : String :=
  "See the CSV output for the full list of items."

/-- Loop body of the facility-identifier format check, quality_control.py
lines 50-70, over the layer parameters paired with their index: an
unselected layer only advances the progress bar; a selected one logs,
calls the check (a failure there aborts the loop after the log line), then
advances the progress bar and accumulates the report lines. -/
def fidFormatLoop (env : Env) : List (Nat × LayerParam) → RunOut
  | [] => ([], none)
  | (idx, l) :: rest =>
    if !l.selected then
      seqRun ([Effect.increment], none) (fidFormatLoop env rest)
    else
      match env.incFids idx with
      | Except.error e =>
        ([Effect.info
            ("[" ++ l.valueAsText ++
              "] Checking facility identifier formatting...")], some e)
      | Except.ok incFids =>
        seqRun
          ((Effect.info
              ("[" ++ l.valueAsText ++
                "] Checking facility identifier formatting...") ::
            Effect.increment ::
            Effect.addResultLine l.valueAsText
              "Incorrectly formatted facility identifiers (object ID, facility identifier):" ::
            (if incFids.isEmpty then []
             else [Effect.addNoteLine l.valueAsText CSV_PROCESSING_MSG])) ++
            [Effect.addItemsFid incFids,
             Effect.addResultLine l.valueAsText
               (Nat.repr incFids.length ++
                 " incorrectly formatted facility identifiers.")], none)
          (fidFormatLoop env rest)

/-- Loop body of the duplicate facility-identifier check,
quality_control.py lines 77-99, over the layer parameters paired with
their index. -/
def fidDupLoop (env : Env) : List (Nat × LayerParam) → RunOut
  | [] => ([], none)
  | (idx, l) :: rest =>
    if !l.selected then
      seqRun ([Effect.increment], none) (fidDupLoop env rest)
    else
      match env.dupFids idx with
      | Except.error e =>
        ([Effect.info
            ("[" ++ l.valueAsText ++
              "] Checking for duplicate facility identifiers...")], some e)
      | Except.ok dups =>
        seqRun
          ([Effect.info
              ("[" ++ l.valueAsText ++
                "] Checking for duplicate facility identifiers..."),
            Effect.increment,
            Effect.addResultLine l.valueAsText
              "Duplicate facility identifiers grouped on each line (fid, object IDs):",
            Effect.addItemsDup dups,
            Effect.addResultLine l.valueAsText
              (Nat.repr (num_duplicate dups) ++
                " duplicate facility identifiers.")], none)
          (fidDupLoop env rest)

/-- Water-main associated-files phase of execute, quality_control.py
lines 109-130.  The source's typos ("assiociated", "files files") are kept
verbatim. -/
def wmFilePhase (env : Env) (wm : LayerParam) : RunOut :=
  match env.filesResult with
  | Except.error e =>
    ([Effect.info
        ("[" ++ wm.valueAsText ++
          "] Verifying assiociated files for integrated mains...")], some e)
  | Except.ok nf =>
    ((Effect.info
        ("[" ++ wm.valueAsText ++
          "] Verifying assiociated files for integrated mains...") ::
      Effect.addResultLine wm.valueAsText
        "Nonexistent associated files (object ID, comments):" ::
      (if nf.isEmpty then []
       else [Effect.addNoteLine wm.valueAsText CSV_PROCESSING_MSG])) ++
      [Effect.addItemsFiles nf,
       Effect.addResultLine wm.valueAsText
         (Nat.repr nf.length ++ " nonexistent files for integrated mains."),
       Effect.addResultLine wm.valueAsText
         (Nat.repr (num_unique nf) ++
           " unique nonexistent files files for integrated mains.")], none)

/-- Water-main data-source phase of execute, quality_control.py lines
132-149. -/
def wmDsPhase (env : Env) (wm : LayerParam) : RunOut :=
  match env.dsResult with
  | Except.error e =>
    ([Effect.info
        ("[" ++ wm.valueAsText ++
          "] Checking data sources for integrated mains...")], some e)
  | Except.ok ds =>
    ((Effect.info
        ("[" ++ wm.valueAsText ++
          "] Checking data sources for integrated mains...") ::
      Effect.addResultLine wm.valueAsText
        "Missing or unknown data sources (object ID, datasource):" ::
      (if ds.isEmpty then []
       else [Effect.addNoteLine wm.valueAsText CSV_PROCESSING_MSG])) ++
      [Effect.addItemsDs ds,
       Effect.addResultLine wm.valueAsText
         (Nat.repr ds.length ++
           " missing or unknown data sources for integrated mains.")], none)

/-- The default layer parameter used when the layer list is empty; the
host tool dialog always supplies eight layer parameters, so this value is
never consulted in a real run. -/
def noLayer : LayerParam := ⟨false, "", ""⟩

/-- Opening of execute, quality_control.py lines 23-34: start the default
progress bar, then warn once per omitted layer parameter. -/
def preamblePart (layers : List LayerParam) : RunOut :=
  (Effect.setProgressor "default" ::
    (layers.filter (fun l => !l.selected)).map
      (fun l => Effect.warning ("Layer omitted: " ++ l.displayName)), none)

/-- Format-check section of execute, quality_control.py lines 36-70: when
toggled, switch the progress bar to step mode and run the loop over the
layer parameters. -/
def fidFormatPart (env : Env) (isFidFormatCheck : Bool)
    (layers : List LayerParam) : RunOut :=
  if isFidFormatCheck then
    seqRun ([Effect.setProgressor "step"], none)
      (fidFormatLoop env layers.enum)
  else ([], none)

/-- Duplicate-check section of execute, quality_control.py lines
72-99. -/
def fidDupPart (env : Env) (isFidDuplicateCheck : Bool)
    (layers : List LayerParam) : RunOut :=
  if isFidDuplicateCheck then
    seqRun ([Effect.setProgressor "step"], none) (fidDupLoop env layers.enum)
  else ([], none)

/-- Closing of execute, quality_control.py lines 101-153: either warn and
return early when a water-main check is toggled but the water-main layer
is absent (in which case the terminal post never runs), or reset the
progress bar, run the toggled water-main phases and flush the report with
`sy.post`. -/
def wmPart (env : Env) (isWmFileCheck isWmDsCheck : Bool)
    (wm : LayerParam) : RunOut :=
  if (isWmFileCheck || isWmDsCheck) && !wm.selected then
    ([Effect.warning
        ("Layer omitted: " ++ wm.displayName ++
          ", skipping water main checks.")], none)
  else
    seqRun ([Effect.setProgressor "default"], none)
      (seqRun (if isWmFileCheck then wmFilePhase env wm else ([], none))
        (seqRun (if isWmDsCheck then wmDsPhase env wm else ([], none))
          ([Effect.post], none)))

/-- Embeds execute (quality_control.py lines 19-153) as the sequence of
effects it emits, paired with the error that aborted it, if any.  The
water-main layer is `layers[-1]`; the host always supplies eight layer
parameters. -/
def execute (env : Env)
    (isFidFormatCheck isFidDuplicateCheck isWmFileCheck isWmDsCheck : Bool)
    (layers : List LayerParam) : RunOut :=
  seqRun (preamblePart layers)
    (seqRun (fidFormatPart env isFidFormatCheck layers)
      (seqRun (fidDupPart env isFidDuplicateCheck layers)
        (wmPart env isWmFileCheck isWmDsCheck (layers.getLastD noLayer))))

/-- Witness for C8 on a concrete three-row table. -/
theorem fid_format_check_examples_witness :
    ((1, some "12A") ∈
        find_incorrect_fids matchesDigitsCA
          [(1, some "12A"), (2, some "12CA"), (3, none)]) ∧
      ((2, some "12CA") ∉
        find_incorrect_fids matchesDigitsCA
          [(1, some "12A"), (2, some "12CA"), (3, none)]) ∧
      ((3, (none : Option String)) ∈
        find_incorrect_fids matchesDigitsCA
          [(1, some "12A"), (2, some "12CA"), (3, none)]) :=
  ⟨(fid_format_check_examples
        [(1, some "12A"), (2, some "12CA"), (3, none)] (1, some "12A")
        (by decide)).1 rfl,
    (fid_format_check_examples
        [(1, some "12A"), (2, some "12CA"), (3, none)] (2, some "12CA")
        (by decide)).2.1 rfl,
    (fid_format_check_examples
        [(1, some "12A"), (2, some "12CA"), (3, none)] (3, none)
        (by decide)).2.2 rfl⟩

/-- Helper: a sequenced run that ends without error means both fragments
ran without error. -/
theorem seqRun_none {a b : RunOut} (h : (seqRun a b).2 = none) :
    a.2 = none ∧ b.2 = none := by
  rcases a with ⟨tr, e⟩
  cases e with
  | none => exact ⟨rfl, by simpa [seqRun] using h⟩
  | some e => simp [seqRun] at h

/-- Helper: when the first fragment runs without error, sequencing
concatenates the traces. -/
theorem seqRun_of_none {a : RunOut} (b : RunOut) (ha : a.2 = none) :
    seqRun a b = (a.1 ++ b.1, b.2) := by
  rcases a with ⟨tr, e⟩
  cases e with
  | none => rfl
  | some e => simp at ha

/-- Helper: when the first fragment aborts, the second never runs. -/
theorem seqRun_of_some {a : RunOut} (b : RunOut) {e : ExecErr}
    (ha : a.2 = some e) : seqRun a b = (a.1, some e) := by
  rcases a with ⟨tr, e'⟩
  cases e' with
  | none => simp at ha
  | some e' =>
    obtain rfl : e' = e := Option.some.inj ha
    rfl

/-- Helper: an effect of a sequenced run comes from one of the two
fragments. -/
theorem mem_seqRun {a b : RunOut} {x : Effect}
    (hx : x ∈ (seqRun a b).1) : x ∈ a.1 ∨ x ∈ b.1 := by
  rcases a with ⟨tr, e⟩
  cases e with
  | none => simpa [seqRun] using hx
  | some e => exact Or.inl (by simpa [seqRun] using hx)

/-- Classifies the effects the facility-identifier sections may emit:
neither the terminal post nor a water-main item batch is among them. -/
def fidLoopEffect : Effect → Bool
  | Effect.post => false
  | Effect.addItemsDs _ => false
  | Effect.addItemsFiles _ => false
  | _ => true

/-- Helper: every effect of the format-check loop is a
facility-identifier effect. -/
theorem fidFormatLoop_effects (env : Env) :
    ∀ ls : List (Nat × LayerParam),
      (fidFormatLoop env ls).1.all fidLoopEffect = true := by
  intro ls
  induction ls with
  | nil => rfl
  | cons hd rest ih =>
    rcases hd with ⟨idx, l⟩
    by_cases hsel : l.selected = true
    · cases henv : env.incFids idx with
      | error e => simp [fidFormatLoop, hsel, henv, fidLoopEffect]
      | ok res =>
        by_cases hres : res.isEmpty
        · simp [fidFormatLoop, hsel, henv, seqRun, hres, fidLoopEffect, ih]
        · simp [fidFormatLoop, hsel, henv, seqRun, hres, fidLoopEffect, ih]
    · have hsel' : l.selected = false := by simpa using hsel
      simp [fidFormatLoop, hsel', seqRun, fidLoopEffect, ih]

/-- Helper: every effect of the duplicate-check loop is a
facility-identifier effect. -/
theorem fidDupLoop_effects (env : Env) :
    ∀ ls : List (Nat × LayerParam),
      (fidDupLoop env ls).1.all fidLoopEffect = true := by
  intro ls
  induction ls with
  | nil => rfl
  | cons hd rest ih =>
    rcases hd with ⟨idx, l⟩
    by_cases hsel : l.selected = true
    · cases henv : env.dupFids idx with
      | error e => simp [fidDupLoop, hsel, henv, fidLoopEffect]
      | ok res => simp [fidDupLoop, hsel, henv, seqRun, fidLoopEffect, ih]
    · have hsel' : l.selected = false := by simpa using hsel
      simp [fidDupLoop, hsel', seqRun, fidLoopEffect, ih]

/-- Helper: every effect of the preamble and of the two
facility-identifier sections is a facility-identifier effect. -/
theorem front_sections_effects (env : Env) (f1 f2 : Bool)
    (layers : List LayerParam) {x : Effect}
    (hx : x ∈ (preamblePart layers).1 ∨
      x ∈ (fidFormatPart env f1 layers).1 ∨
      x ∈ (fidDupPart env f2 layers).1) :
    fidLoopEffect x = true := by
  rcases hx with hx | hx | hx
  · simp only [preamblePart, List.mem_cons, List.mem_map] at hx
    rcases hx with rfl | ⟨l, -, rfl⟩ <;> rfl
  · by_cases hf : f1 = true
    · rw [fidFormatPart, if_pos hf] at hx
      rcases mem_seqRun hx with h | h
      · rcases (by simpa using h : x = Effect.setProgressor "step") with rfl
        rfl
      · exact (List.all_eq_true.mp (fidFormatLoop_effects env layers.enum)) x h
    · rw [fidFormatPart, if_neg hf] at hx
      simp at hx
  · by_cases hf : f2 = true
    · rw [fidDupPart, if_pos hf] at hx
      rcases mem_seqRun hx with h | h
      · rcases (by simpa using h : x = Effect.setProgressor "step") with rfl
        rfl
      · exact (List.all_eq_true.mp (fidDupLoop_effects env layers.enum)) x h
    · rw [fidDupPart, if_neg hf] at hx
      simp at hx

/-- Environment in which every check succeeds with an empty result list;
used by the concrete counterexample and witnesses. -/
def envOk : Env :=
  ⟨fun _ => Except.ok [], fun _ => Except.ok [], Except.ok [],
    Except.ok []⟩

/-- Environment in which the water-main file check raises the execution
error and every other check succeeds with an empty result list. -/
def envErrFiles : Env :=
  ⟨fun _ => Except.ok [], fun _ => Except.ok [],
    Except.error ExecErr.executeError, Except.ok []⟩

/-- The eight layer parameters of the tool dialog, all left without a
value. -/
def demoLayers : List LayerParam :=
  [⟨false, "Casing", ""⟩, ⟨false, "Control Valve", ""⟩,
   ⟨false, "Fitting", ""⟩, ⟨false, "Hydrant", ""⟩,
   ⟨false, "Service Line", ""⟩, ⟨false, "Structure", ""⟩,
   ⟨false, "System Valve", ""⟩, ⟨false, "Water Main", ""⟩]

/-- The eight layer parameters with only the water-main layer supplied. -/
def demoLayersWm : List LayerParam :=
  [⟨false, "Casing", ""⟩, ⟨false, "Control Valve", ""⟩,
   ⟨false, "Fitting", ""⟩, ⟨false, "Hydrant", ""⟩,
   ⟨false, "Service Line", ""⟩, ⟨false, "Structure", ""⟩,
   ⟨false, "System Valve", ""⟩, ⟨true, "Water Main", "wm"⟩]

/-- C2 counterexample: in a run that selects the water-main file check
while the water-main layer parameter is absent, execute finishes without
error and logs the skip warning, yet the terminal `sy.post` is never
reached, because the guard at quality_control.py lines 101-105 returns
from execute instead of skipping only the water-main checks. -/
theorem wm_skip_counterexample :
    (execute envOk false false true false demoLayers).2 = none ∧
      Effect.warning
          "Layer omitted: Water Main, skipping water main checks." ∈
        (execute envOk false false true false demoLayers).1 ∧
      Effect.post ∉ (execute envOk false false true false demoLayers).1 := by
  decide

/-- C2 amended: in every error-free run, if a water-main check is selected
while the water-main layer parameter is absent then a warning is logged
and execute returns early, skipping both water-main checks and the
terminal `sy.post`; in every other error-free run the accumulated results
are flushed by `sy.post`. -/
theorem wm_layer_skip_spec (env : Env) (f1 f2 f3 f4 : Bool)
    (layers : List LayerParam)
    (hnoerr : (execute env f1 f2 f3 f4 layers).2 = none) :
    (((f3 || f4) && !(layers.getLastD noLayer).selected) = true →
      Effect.warning
          ("Layer omitted: " ++ (layers.getLastD noLayer).displayName ++
            ", skipping water main checks.") ∈
          (execute env f1 f2 f3 f4 layers).1 ∧
        Effect.post ∉ (execute env f1 f2 f3 f4 layers).1) ∧
      (((f3 || f4) && !(layers.getLastD noLayer).selected) = false →
        Effect.post ∈ (execute env f1 f2 f3 f4 layers).1) := by
  rw [execute] at hnoerr ⊢
  obtain ⟨hpre, hrest⟩ := seqRun_none hnoerr
  obtain ⟨h1, hrest2⟩ := seqRun_none hrest
  obtain ⟨h2, hW⟩ := seqRun_none hrest2
  rw [seqRun_of_none _ h2, seqRun_of_none _ h1, seqRun_of_none _ hpre]
  constructor
  · intro hcond
    rw [wmPart, if_pos hcond] at hW ⊢
    constructor
    · simp
    · intro hpost
      simp only [List.mem_append] at hpost
      rcases hpost with hp | hp | hp | hp
      · exact absurd (front_sections_effects env f1 f2 layers (Or.inl hp))
          (by decide)
      · exact absurd
          (front_sections_effects env f1 f2 layers (Or.inr (Or.inl hp)))
          (by decide)
      · exact absurd
          (front_sections_effects env f1 f2 layers (Or.inr (Or.inr hp)))
          (by decide)
      · simp at hp
  · intro hcond
    rw [wmPart, if_neg (by rw [hcond]; simp)] at hW ⊢
    obtain ⟨hsp, hFD⟩ := seqRun_none hW
    obtain ⟨hF, hDpost⟩ := seqRun_none hFD
    obtain ⟨hD, -⟩ := seqRun_none hDpost
    rw [seqRun_of_none _ hD, seqRun_of_none _ hF, seqRun_of_none _ hsp]
    simp

/-- Witness for C2's amended claim: on the concrete skipped run the
warning appears in the trace and the terminal post does not. -/
theorem wm_layer_skip_spec_witness :
    (execute envOk false false true false demoLayers).2 = none ∧
      ((true || false) && !(demoLayers.getLastD noLayer).selected) = true ∧
      (Effect.warning
          ("Layer omitted: " ++ (demoLayers.getLastD noLayer).displayName ++
            ", skipping water main checks.") ∈
          (execute envOk false false true false demoLayers).1 ∧
        Effect.post ∉ (execute envOk false false true false demoLayers).1) :=
  ⟨by decide, by decide,
    (wm_layer_skip_spec envOk false false true false demoLayers
        (by decide)).1 (by decide)⟩

/-- C7: when the data access inside the water-main file check fails, the
single execution error propagates out of execute uncaught: the run ends
with that error, the remaining data-source check emits nothing and no
terminal post occurs, while every report effect accumulated by the earlier
facility-identifier sections remains in the trace. -/
theorem check_error_propagates (env : Env) (f1 f2 f4 : Bool)
    (layers : List LayerParam)
    (hwm : (layers.getLastD noLayer).selected = true)
    (herr : env.filesResult = Except.error ExecErr.executeError)
    (h1 : (fidFormatPart env f1 layers).2 = none)
    (h2 : (fidDupPart env f2 layers).2 = none) :
    (execute env f1 f2 true f4 layers).2 = some ExecErr.executeError ∧
      Effect.post ∉ (execute env f1 f2 true f4 layers).1 ∧
      (∀ its : List (Nat × Option String),
        Effect.addItemsDs its ∉ (execute env f1 f2 true f4 layers).1) ∧
      (∀ x ∈ (fidFormatPart env f1 layers).1,
        x ∈ (execute env f1 f2 true f4 layers).1) ∧
      (∀ x ∈ (fidDupPart env f2 layers).1,
        x ∈ (execute env f1 f2 true f4 layers).1) := by
  have hW : wmPart env true f4 (layers.getLastD noLayer) =
      ([Effect.setProgressor "default",
        Effect.info ("[" ++ (layers.getLastD noLayer).valueAsText ++
          "] Verifying assiociated files for integrated mains...")],
       some ExecErr.executeError) := by
    rw [wmPart, if_neg (by rw [hwm]; simp), wmFilePhase, herr]
    rfl
  have hexec : execute env f1 f2 true f4 layers =
      ((preamblePart layers).1 ++ ((fidFormatPart env f1 layers).1 ++
        ((fidDupPart env f2 layers).1 ++
          [Effect.setProgressor "default",
           Effect.info ("[" ++ (layers.getLastD noLayer).valueAsText ++
             "] Verifying assiociated files for integrated mains...")])),
       some ExecErr.executeError) := by
    rw [execute, hW, seqRun_of_none _ h2, seqRun_of_none _ h1,
      seqRun_of_none _ (rfl : (preamblePart layers).2 = none)]
  rw [hexec]
  refine ⟨rfl, ?_, ?_, ?_, ?_⟩
  · intro hpost
    simp only [List.mem_append] at hpost
    rcases hpost with hp | hp | hp | hp
    · exact absurd (front_sections_effects env f1 f2 layers (Or.inl hp))
        (by decide)
    · exact absurd
        (front_sections_effects env f1 f2 layers (Or.inr (Or.inl hp)))
        (by decide)
    · exact absurd
        (front_sections_effects env f1 f2 layers (Or.inr (Or.inr hp)))
        (by decide)
    · simp at hp
  · intro its hds
    simp only [List.mem_append] at hds
    rcases hds with hp | hp | hp | hp
    · exact absurd (front_sections_effects env f1 f2 layers (Or.inl hp))
        Bool.false_ne_true
    · exact absurd
        (front_sections_effects env f1 f2 layers (Or.inr (Or.inl hp)))
        Bool.false_ne_true
    · exact absurd
        (front_sections_effects env f1 f2 layers (Or.inr (Or.inr hp)))
        Bool.false_ne_true
    · simp at hp
  · intro x hx
    simp only [List.mem_append]
    exact Or.inr (Or.inl hx)
  · intro x hx
    simp only [List.mem_append]
    exact Or.inr (Or.inr (Or.inl hx))

/-- Witness for C7 on the concrete failing environment with only the
water-main layer supplied. -/
theorem check_error_propagates_witness :
    (demoLayersWm.getLastD noLayer).selected = true ∧
      envErrFiles.filesResult = Except.error ExecErr.executeError ∧
      (fidFormatPart envErrFiles false demoLayersWm).2 = none ∧
      (fidDupPart envErrFiles false demoLayersWm).2 = none ∧
      ((execute envErrFiles false false true true demoLayersWm).2 =
          some ExecErr.executeError ∧
        Effect.post ∉
          (execute envErrFiles false false true true demoLayersWm).1 ∧
        Effect.addItemsDs [] ∉
          (execute envErrFiles false false true true demoLayersWm).1) :=
  ⟨by decide, rfl, rfl, rfl,
    (check_error_propagates envErrFiles false false true demoLayersWm
        (by decide) rfl rfl rfl).1,
    (check_error_propagates envErrFiles false false true demoLayersWm
        (by decide) rfl rfl rfl).2.1,
    (check_error_propagates envErrFiles false false true demoLayersWm
        (by decide) rfl rfl rfl).2.2.1 []⟩

end ColaWater
